import Mathlib

/-!
A verification development for the `google_search_mcp` repository.

The embedding targets `server.py`: the `_normalize` result reshaping with
optional `ALLOW_DOMAINS` filtering, the `_cse_get` bounded-retry HTTP loop,
and the `search` tool entry point (input hygiene, parameter assembly,
echoed query, result construction).

Modelling conventions:
- Python `str` values are modelled as `List Char` (`Str`).  Python string
  operations (`strip`, `lower`, `endswith`, `split`, slicing) become the
  corresponding list operations.  `Char.toLower` only lowercases ASCII,
  which matches every string the code compares against.
- Python `int` is modelled as `Int` (unbounded), HTTP status codes as `Nat`.
- Python `float` delay arithmetic is modelled over `ℚ` with exact constants
  (`0.2 = 1/5`, `0.4 = 2/5`); the claims under study are about which branch
  and which formula the code selects, not about IEEE rounding.
- The async retry loop is modelled by an explicit trace: attempt `n` of a
  call observes `trace n` (an HTTP response or a transport-level error) and
  `rnd n` (the `random.random()` draw, a value in `[0,1)`).
- Python exceptions are modelled as `PyErr` records carrying the exception
  class name and the message; `raise` becomes `Except.error`.
- The wall-clock latency field and the SHA-256 trace hash of the returned
  payload are outside the embedding (real time / cryptographic hash); no
  claim mentions them.
-/

namespace GoogleSearchMCP

/-- Python strings as character lists. -/
abbrev Str := List Char

/-- Python `str.strip()`: drop whitespace from both ends. -/
def pyStrip (s : Str) : Str :=
  ((s.dropWhile Char.isWhitespace).reverse.dropWhile Char.isWhitespace).reverse

/-- Python `str.lower()` (ASCII range, which covers all compared literals). -/
def pyLower (s : Str) : Str := s.map Char.toLower

/-- Python `s.endswith(p)`. -/
def endswith (s p : Str) : Bool := p.isSuffixOf s

/-- Python truthiness of an optional string: `None` and `""` are falsy. -/
def truthy : Option Str → Bool
  | none => false
  | some s => !s.isEmpty

/-- Characters allowed in a URL scheme, from `urllib.parse.scheme_chars`. -/
def scheme_chars : Str :=
  ("abcdefghijklmnopqrstuvwxyzABCDEFGHIJKLMNOPQRSTUVWXYZ0123456789+-.").data

/-- Scheme removal step of `urllib.parse.urlsplit`: if a `:` occurs at a
positive index, the first character is an ASCII letter and everything before
the `:` is a scheme character, drop the scheme and the `:`. -/
def removeScheme (u : Str) : Str :=
  let pre := u.takeWhile (fun c => !(c == ':'))
  if pre.length < u.length && !pre.isEmpty &&
      (match u with
       | c :: _ => c.isAlpha
       | [] => false) &&
      pre.all (fun c => scheme_chars.contains c)
  then u.drop (pre.length + 1)
  else u

/-- `urllib.parse.urlsplit(u).netloc`: after scheme removal, a netloc exists
only when the remainder starts with `//`; it extends to the next `/`, `?` or
`#`.  (The mismatched-IPv6-bracket `ValueError` path is not modelled; no
claim involves bracketed hosts.) -/
def netlocOf (u : Str) : Str :=
  match removeScheme u with
  | '/' :: '/' :: rest => rest.takeWhile (fun c => !(c == '/' || c == '?' || c == '#'))
  | _ => []

/-- `(urlparse(url).netloc or "").lower()` from `_normalize`.  For a `None`
link, `urlparse` coerces `None` to an empty input (its `_coerce_args` decodes
falsy non-`str` arguments to `""`), so the host is the empty string. -/
def hostOf : Option Str → Str
  | none => []
  | some u => pyLower (netlocOf u)

/-- `ALLOW_DOMAINS` parsing: split the configured string on commas, strip
each piece, keep the non-empty ones, lowercase them.  (The Python code
builds a `set`; membership queries are the only use, so a list is an
equivalent model.) -/
def parseAllowDomains (s : Str) : List Str :=
  (((s.splitOn ',').map pyStrip).filter (fun d => !d.isEmpty)).map pyLower

/-- A raw Google CSE result item: the fields `_normalize` reads. -/
structure RawItem where
  title : Option Str := none
  link : Option Str := none
  snippet : Option Str := none
deriving DecidableEq, Repr

/-- One entry of the list `_normalize` returns. -/
structure NormalizedItem where
  title : Option Str := none
  url : Option Str := none
  snippet : Option Str := none
  rank : Nat := 0
deriving DecidableEq, Repr

/-- The keep/skip decision of `_normalize`'s loop body: with a configured
allowlist an item survives iff its link's host ends with some entry;
without an allowlist every item survives. -/
def keepItem (allow : List Str) (link : Option Str) : Bool :=
  if allow.isEmpty then true
  else allow.any (fun dom => endswith (hostOf link) dom)

/-- The `for i, it in enumerate(items, start=1)` loop of `_normalize`,
with `i` the running 1-based rank over the *raw* item list. -/
def normalizeAux (allow : List Str) : Nat → List RawItem → List NormalizedItem
  | _, [] => []
  | i, it :: rest =>
    if keepItem allow it.link then
      { title := it.title, url := it.link, snippet := it.snippet, rank := i } ::
        normalizeAux allow (i + 1) rest
    else
      normalizeAux allow (i + 1) rest

/-- `_normalize(items)` under allowlist configuration `allow`. -/
def normalize (allow : List Str) (items : List RawItem) : List NormalizedItem :=
  normalizeAux allow 1 items

/-- Digit-string value, helper for the `float()` model. -/
def digitsVal (l : Str) : Nat := l.foldl (fun a c => a * 10 + (c.toNat - 48)) 0

/-- Python `float(s)` on plain decimal literals: optional surrounding
whitespace, optional sign, digits with an optional fractional part.
`none` models the `ValueError` path.  (Exponent/`inf`/`nan` spellings are
not modelled; the code only meets `Retry-After` header values here, and the
claims only need plain decimals to parse and non-numeric text to fail.) -/
def pyFloatOpt (s : Str) : Option ℚ :=
  let t := pyStrip s
  let signed := match t with
    | '-' :: r => (true, r)
    | '+' :: r => (false, r)
    | _ => (false, t)
  let body := signed.2
  let intPart := body.takeWhile Char.isDigit
  let rest := body.drop intPart.length
  let mag : Option ℚ :=
    match rest with
    | [] => if intPart.isEmpty then none else some ((digitsVal intPart : ℚ))
    | '.' :: frac =>
      if frac.all Char.isDigit && !(intPart.isEmpty && frac.isEmpty) then
        some ((digitsVal intPart : ℚ) + (digitsVal frac : ℚ) / (10 : ℚ) ^ frac.length)
      else none
    | _ => none
  mag.map (fun v => if signed.1 then -v else v)

/-- A Python exception: class name plus message. -/
structure PyErr where
  exn : Str
  msg : Str
deriving DecidableEq, Repr

/-- The `searchInformation` sub-object the lean-fields projection requests;
`search` passes it through, defaulting a missing one to `{}`. -/
structure SearchInfo where
  searchTime : Option Str := none
  totalResults : Option Str := none
deriving DecidableEq, Repr

/-- The parsed JSON body of a successful CSE response, restricted to the
fields `search` reads: `kind`, `items`, `queries.nextPage[*].startIndex`
and `searchInformation`. -/
structure CseData where
  kind : Option Str := none
  items : Option (List RawItem) := none
  nextPage : Option (List (Option Int)) := none
  searchInformation : Option SearchInfo := none
deriving DecidableEq, Repr

/-- An httpx response as `_cse_get` observes it: status code, body text,
optional `Retry-After` header, and the parsed JSON payload. -/
structure HttpResponse where
  status : Nat
  text : Str := []
  retryAfter : Option Str := none
  json : CseData := {}
deriving DecidableEq, Repr

/-- What one `await _http.get(...)` produces: either an HTTP response, or a
transport-level `httpx.HTTPError` (no response at all) with its text. -/
inductive AttemptOutcome where
  | resp : HttpResponse → AttemptOutcome
  | netErr : Str → AttemptOutcome
deriving DecidableEq, Repr

/-- The statuses `_cse_get` treats as retryable: `(429, 500, 502, 503, 504)`. -/
def retryableStatus (s : Nat) : Bool :=
  s == 429 || s == 500 || s == 502 || s == 503 || s == 504

/-- `r.raise_for_status()` raises exactly when the status is not a 2xx
success code (httpx raises `HTTPStatusError` for every non-success status). -/
def statusRaises (s : Nat) : Bool := !(200 ≤ s && s ≤ 299)

/-- The `Retry-After` handling of `_cse_get`: a truthy header value that
`float()` parses yields a delay floored at `0.0`; otherwise `None`
(fall back to the jitter backoff). -/
def retryAfterDelay (r : HttpResponse) : Option ℚ :=
  match r.retryAfter with
  | none => none
  | some ra =>
    if ra.isEmpty then none
    else
      match pyFloatOpt ra with
      | some v => some (max 0 v)
      | none => none

/-- `(0.2 + random.random() * 0.4) * (2**attempt)` with the draw `r`. -/
def backoffDelay (attempt : Nat) (r : ℚ) : ℚ :=
  ((1 : ℚ) / 5 + r * ((2 : ℚ) / 5)) * 2 ^ attempt

instance {ε α : Type} [DecidableEq ε] [DecidableEq α] : DecidableEq (Except ε α) :=
  fun x y =>
    match x, y with
    | .ok a, .ok b =>
      if h : a = b then isTrue (by rw [h]) else isFalse (fun hc => h (Except.ok.inj hc))
    | .error a, .error b =>
      if h : a = b then isTrue (by rw [h]) else isFalse (fun hc => h (Except.error.inj hc))
    | .ok _, .error _ => isFalse (fun hc => Except.noConfusion hc)
    | .error _, .ok _ => isFalse (fun hc => Except.noConfusion hc)

/-- What one iteration of `_cse_get`'s `for attempt in range(3)` body does. -/
inductive StepResult where
  | done : Except PyErr CseData → StepResult
  | retry : ℚ → StepResult
deriving DecidableEq, Repr

/-- One iteration of `_cse_get`'s loop at index `attempt` with random draw
`r`: return the JSON on success; on an `HTTPStatusError`, sleep and continue
when the status is retryable and attempts remain (honouring `Retry-After`),
else raise `RuntimeError` with the status and the body truncated to 500
characters; on a transport error, sleep the jitter backoff and continue when
attempts remain, else raise `RuntimeError` with the exception text. -/
def cseStep (o : AttemptOutcome) (attempt : Nat) (r : ℚ) : StepResult :=
  match o with
  | .resp resp =>
    if !statusRaises resp.status then .done (.ok resp.json)
    else if retryableStatus resp.status && attempt < 2 then
      .retry ((retryAfterDelay resp).getD (backoffDelay attempt r))
    else
      .done (.error
        { exn := ("RuntimeError").data,
          msg := ("CSE request failed (").data ++ (toString resp.status).data ++
            ("): ").data ++ resp.text.take 500 })
  | .netErr m =>
    if attempt < 2 then .retry (backoffDelay attempt r)
    else .done (.error
      { exn := ("RuntimeError").data,
        msg := ("Network error contacting CSE: ").data ++ m })

/-- Observable outcome of a `_cse_get` call: the returned value or raised
exception (`none` models the loop falling through, which would make the
Python function return `None`; `cse_get_res_isSome` below shows it cannot
happen), the number of GET attempts issued, and the sleeps performed. -/
structure CseOutcome where
  res : Option (Except PyErr CseData)
  attempts : Nat
  delays : List ℚ
deriving Repr

/-- `for attempt in attemptIdxs: <loop body>`, threading the trace. -/
def cseGetGo (t : Nat → AttemptOutcome) (rnd : Nat → ℚ) :
    List Nat → CseOutcome
  | [] => { res := none, attempts := 0, delays := [] }
  | a :: rest =>
    match cseStep (t a) a (rnd a) with
    | .done x => { res := some x, attempts := 1, delays := [] }
    | .retry d =>
      let o := cseGetGo t rnd rest
      { res := o.res, attempts := o.attempts + 1, delays := d :: o.delays }

/-- `_cse_get` on a call whose attempt `n` observes `t n` and draws `rnd n`. -/
def cse_get (t : Nat → AttemptOutcome) (rnd : Nat → ℚ) : CseOutcome :=
  cseGetGo t rnd (List.range 3)

/-- A value in the upstream parameter dict or the echoed query mapping. -/
inductive PVal where
  | vstr : Str → PVal
  | vint : Int → PVal
  | vnone : PVal
deriving DecidableEq, Repr

/-- The arguments of the `search` tool, with its Python defaults. -/
structure SearchArgs where
  q : Str
  num : Int := 5
  start : Int := 1
  siteSearch : Option Str := none
  siteSearchFilter : Option Str := none
  safe : Option Str := none
  gl : Option Str := none
  hl : Option Str := none
  lr : Option Str := none
  useSiteRestrict : Bool := false
  dateRestrict : Option Str := none
  exactTerms : Option Str := none
  orTerms : Option Str := none
  excludeTerms : Option Str := none
  cxOverride : Option Str := none
  lean_fields : Bool := true
deriving DecidableEq, Repr

/-- The process-wide configuration `search` reads: `GOOGLE_API_KEY`,
`GOOGLE_CX`, and the raw `ALLOW_DOMAINS` string. -/
structure Config where
  apiKey : Str
  cx : Str
  allowDomainsRaw : Str := []
deriving DecidableEq, Repr

/-- `safe and safe not in {"off", "active"}`: the input-validation test.
Note Python truthiness: an empty `safe` string is falsy, so it skips the
check. -/
def safeInvalid : Option Str → Bool
  | none => false
  | some s => !s.isEmpty && !(s == ("off").data) && !(s == ("active").data)

/-- `if v: params[k] = v` — an optional upstream parameter, added only when
truthy. -/
def optParam (k : Str) : Option Str → List (Str × PVal)
  | none => []
  | some v => if v.isEmpty then [] else [(k, .vstr v)]

/-- The `fields` projection string sent when `lean_fields` is true. -/
def leanFieldsProj : Str :=
  ("items(title,link,snippet),queries(nextPage(startIndex)),searchInformation(searchTime,totalResults),kind").data

/-- The upstream parameter dict `search` assembles (insertion order), given
the already-hygienised `q`, `num` and `start`. -/
def buildParams (cfg : Config) (a : SearchArgs) (q : Str) (num start : Int) :
    List (Str × PVal) :=
  [(("key").data, .vstr cfg.apiKey),
   (("cx").data, .vstr (match a.cxOverride with
     | some c => if c.isEmpty then cfg.cx else c
     | none => cfg.cx)),
   (("q").data, .vstr q),
   (("num").data, .vint num),
   (("start").data, .vint start)] ++
  optParam (("siteSearch").data) a.siteSearch ++
  optParam (("siteSearchFilter").data) a.siteSearchFilter ++
  optParam (("safe").data) a.safe ++
  optParam (("gl").data) a.gl ++
  optParam (("hl").data) a.hl ++
  optParam (("lr").data) a.lr ++
  optParam (("dateRestrict").data) a.dateRestrict ++
  optParam (("exactTerms").data) a.exactTerms ++
  optParam (("orTerms").data) a.orTerms ++
  optParam (("excludeTerms").data) a.excludeTerms ++
  (if a.lean_fields then [(("fields").data, .vstr leanFieldsProj)] else [])

/-- A present optional argument echoes as its string, an absent one as
Python `None`. -/
def optVal : Option Str → PVal
  | none => .vnone
  | some s => .vstr s

/-- The `echoed_query` mapping `search` builds: the sanitized request echo.
Its keys are fixed; `key` (and `cx`) are deliberately not among them. -/
def echoed_query (q : Str) (num start : Int) (a : SearchArgs) :
    List (Str × PVal) :=
  [(("q").data, .vstr q),
   (("num").data, .vint num),
   (("start").data, .vint start),
   (("safe").data, optVal a.safe),
   (("gl").data, optVal a.gl),
   (("hl").data, optVal a.hl),
   (("lr").data, optVal a.lr),
   (("siteSearch").data, optVal a.siteSearch),
   (("siteSearchFilter").data, optVal a.siteSearchFilter),
   (("dateRestrict").data, optVal a.dateRestrict),
   (("exactTerms").data, optVal a.exactTerms),
   (("orTerms").data, optVal a.orTerms),
   (("excludeTerms").data, optVal a.excludeTerms)]

/-- `(data.get("queries", {}).get("nextPage") or [{}])[0].get("startIndex")`:
the first next-page entry's start index, `None` when `nextPage` is missing
or empty. -/
def nextPageFrom (d : CseData) : Option Int :=
  match d.nextPage with
  | none => none
  | some [] => none
  | some (e :: _) => e

/-- The dict `search` returns (minus the wall-clock `latency_ms` and the
SHA-256 `trace` hash, which are outside the embedding). -/
structure SearchResult where
  provider : Str
  query : List (Str × PVal)
  searchInfo : SearchInfo
  nextPage : Option Int
  results : List NormalizedItem
  rawKind : Option Str
deriving DecidableEq, Repr

/-- Observable outcome of a `search` call: return value or raised exception,
the upstream parameter dict if any GET was issued (`none` means no network
call was attempted), the number of GET attempts, and the sleeps. -/
structure SearchOutput where
  res : Except PyErr SearchResult
  sent : Option (List (Str × PVal))
  attempts : Nat
  delays : List ℚ
deriving Repr

/-- The `search` tool on configuration `cfg`, arguments `a`, with upstream
attempt trace `t` and random draws `rnd`: trim `q`, clamp `num` to `[1,10]`
and `start` to `≥ 1`, validate `safe`, assemble the parameters, call
`_cse_get`, and on success normalize the items and build the result dict. -/
def search (cfg : Config) (a : SearchArgs) (t : Nat → AttemptOutcome)
    (rnd : Nat → ℚ) : SearchOutput :=
  let q := pyStrip a.q
  let num := max 1 (min 10 a.num)
  let start := max 1 a.start
  if safeInvalid a.safe then
    { res := .error
        { exn := ("ValueError").data,
          msg := ("safe must be \"off\" or \"active\" for Google CSE").data },
      sent := none, attempts := 0, delays := [] }
  else
    let params := buildParams cfg a q num start
    let c := cse_get t rnd
    match c.res with
    | none =>
      -- `_cse_get` falling through its loop would return Python `None`, and
      -- `data.get("items")` would then raise; `cse_get_res_isSome` rules it out.
      { res := .error
          { exn := ("AttributeError").data,
            msg := ("NoneType object has no attribute get").data },
        sent := some params, attempts := c.attempts, delays := c.delays }
    | some (.error e) =>
      { res := .error e, sent := some params, attempts := c.attempts,
        delays := c.delays }
    | some (.ok data) =>
      { res := .ok
          { provider := ("google-cse").data,
            query := echoed_query q num start a,
            searchInfo := data.searchInformation.getD {},
            nextPage := nextPageFrom data,
            results := normalize (parseAllowDomains cfg.allowDomainsRaw)
              (data.items.getD []),
            rawKind := data.kind },
        sent := some params, attempts := c.attempts, delays := c.delays }

/-- An attempt outcome after which `_cse_get`'s loop is willing to retry
(budget permitting): a retryable HTTP status, or any transport error. -/
def retryableFail : AttemptOutcome → Bool
  | .resp r => retryableStatus r.status
  | .netErr _ => true

/-- Concrete configuration without an allowlist, for witnesses. -/
def exCfg : Config := { apiKey := ("k").data, cx := ("c").data }

/-- Concrete configuration with allowlist `example.com`, for witnesses. -/
def exCfgAllow : Config :=
  { apiKey := ("k").data, cx := ("c").data,
    allowDomainsRaw := ("example.com").data }

/-- A random-draw trace that always returns `0`. -/
def exRnd0 : Nat → ℚ := fun _ => 0

/-- A random-draw trace that always returns `1/2`. -/
def exRndHalf : Nat → ℚ := fun _ => 1 / 2

/-- Upstream always answers HTTP 200 with an empty payload. -/
def exOk200 : Nat → AttemptOutcome := fun _ => .resp { status := 200 }

/-- Upstream always answers HTTP 403 with body `forbidden`. -/
def exTr403 : Nat → AttemptOutcome :=
  fun _ => .resp { status := 403, text := ("forbidden").data }

/-- Every attempt fails at the transport level with text `boom`. -/
def exTrNet : Nat → AttemptOutcome := fun _ => .netErr ("boom").data

/-- Upstream answers HTTP 503 twice, then HTTP 200. -/
def exTr503 : Nat → AttemptOutcome := fun n =>
  if n = 2 then .resp { status := 200 } else .resp { status := 503 }

/-- First attempt: HTTP 503 with a non-numeric `Retry-After`; then HTTP 200. -/
def exTrRAbad : Nat → AttemptOutcome := fun n =>
  if n = 0 then .resp { status := 503, retryAfter := some ("abc").data }
  else .resp { status := 200 }

/-- First attempt: HTTP 503 with `Retry-After: 7`; then HTTP 200. -/
def exTrRA7 : Nat → AttemptOutcome := fun n =>
  if n = 0 then .resp { status := 503, retryAfter := some ("7").data }
  else .resp { status := 200 }

/-- The three raw items of the allowlist example: hosts `example.com`,
`evil.com` and `sub.example.com`. -/
def exItems3 : List RawItem :=
  [{ link := some ("https://example.com/a").data },
   { link := some ("https://evil.com/b").data },
   { link := some ("https://sub.example.com/c").data }]

/-- A single raw item whose host is `notexample.com`. -/
def exItemNot : List RawItem :=
  [{ title := some ("t").data, link := some ("https://notexample.com/x").data,
     snippet := some ("s").data }]

/-- Minimal search arguments: the query only. -/
def exArgs : SearchArgs := { q := ("hi").data }

/-- Search arguments with `safe` present but equal to the empty string. -/
def exArgsEmptySafe : SearchArgs := { q := ("hi").data, safe := some [] }

/-- Search arguments with the unsupported `safe` value `strict`. -/
def exArgsStrict : SearchArgs :=
  { q := ("hi").data, safe := some ("strict").data }

/-- Search arguments with out-of-range `num = 0`. -/
def exArgsNum0 : SearchArgs := { q := ("hi").data, num := 0 }

/-- Search arguments with out-of-range `num = 99` and `start = -5`. -/
def exArgsNum99 : SearchArgs := { q := ("hi").data, num := 99, start := -5 }

/-- Raw items where the first item has no `link` key (Python `None`). -/
def exItemsNull : List RawItem :=
  [{ title := some ("t").data },
   { link := some ("https://example.com/a").data }]

/-- The exception class of a `_cse_get` outcome, when it raised. -/
def resExnClass : Option (Except PyErr CseData) → Option Str
  | some (.error e) => some e.exn
  | _ => none

/-- The result `search exCfg exArgs exOk200` returns. -/
def exOkResult : SearchResult :=
  { provider := ("google-cse").data,
    query := echoed_query (("hi").data) 5 1 exArgs,
    searchInfo := {}, nextPage := none, results := [], rawKind := none }

/-! Helper lemmas about the retry loop. -/

theorem retryable_raises {s : Nat} (h : retryableStatus s = true) :
    statusRaises s = true := by
  simp only [retryableStatus, Bool.or_eq_true, beq_iff_eq] at h
  simp only [statusRaises, Bool.not_eq_true', Bool.and_eq_false_iff,
    decide_eq_false_iff_not, not_le]
  omega

theorem cseStep_two_done (o : AttemptOutcome) (r : ℚ) :
    ∃ x, cseStep o 2 r = .done x := by
  cases o with
  | resp resp =>
    simp only [cseStep]
    by_cases h1 : (!statusRaises resp.status) = true
    · rw [if_pos h1]
      exact ⟨_, rfl⟩
    · rw [if_neg h1, if_neg (by simp)]
      exact ⟨_, rfl⟩
  | netErr m =>
    simp only [cseStep]
    rw [if_neg (by omega)]
    exact ⟨_, rfl⟩

theorem cseStep_retry_iff {o : AttemptOutcome} {a : Nat} {r : ℚ} :
    (∃ d, cseStep o a r = .retry d) ↔ (a < 2 ∧ retryableFail o = true) := by
  cases o with
  | resp resp =>
    constructor
    · rintro ⟨d, hd⟩
      simp only [cseStep] at hd
      by_cases h1 : (!statusRaises resp.status) = true
      · rw [if_pos h1] at hd
        exact absurd hd (by simp)
      rw [if_neg h1] at hd
      by_cases h2 : (retryableStatus resp.status && decide (a < 2)) = true
      · simp only [Bool.and_eq_true, decide_eq_true_eq] at h2
        exact ⟨h2.2, by simp [retryableFail, h2.1]⟩
      · rw [if_neg h2] at hd
        exact absurd hd (by simp)
    · rintro ⟨ha, hf⟩
      simp only [retryableFail] at hf
      have hr := retryable_raises hf
      simp only [cseStep]
      rw [if_neg (by simp [hr]), if_pos (by simp [hf, ha])]
      exact ⟨_, rfl⟩
  | netErr m =>
    constructor
    · rintro ⟨d, hd⟩
      simp only [cseStep] at hd
      by_cases hc : a < 2
      · exact ⟨hc, by simp [retryableFail]⟩
      · rw [if_neg hc] at hd
        exact absurd hd (by simp)
    · rintro ⟨ha, _⟩
      simp only [cseStep]
      rw [if_pos ha]
      exact ⟨_, rfl⟩

theorem cseStep_error_shape {o : AttemptOutcome} {a : Nat} {r : ℚ} {e : PyErr}
    (h : cseStep o a r = .done (.error e)) :
    e.exn = ("RuntimeError").data ∧
    ((∃ resp, o = .resp resp ∧
        e.msg = ("CSE request failed (").data ++ (toString resp.status).data ++
          ("): ").data ++ resp.text.take 500) ∨
     (∃ m, o = .netErr m ∧
        e.msg = ("Network error contacting CSE: ").data ++ m)) := by
  cases o with
  | resp resp =>
    simp only [cseStep] at h
    by_cases h1 : (!statusRaises resp.status) = true
    · rw [if_pos h1] at h
      simp at h
    rw [if_neg h1] at h
    by_cases h2 : (retryableStatus resp.status && decide (a < 2)) = true
    · rw [if_pos h2] at h
      simp at h
    rw [if_neg h2] at h
    simp only [StepResult.done.injEq, Except.error.injEq] at h
    subst h
    exact ⟨rfl, .inl ⟨resp, rfl, rfl⟩⟩
  | netErr m =>
    simp only [cseStep] at h
    by_cases hc : a < 2
    · rw [if_pos hc] at h
      simp at h
    rw [if_neg hc] at h
    simp only [StepResult.done.injEq, Except.error.injEq] at h
    subst h
    exact ⟨rfl, .inr ⟨m, rfl, rfl⟩⟩

theorem cseStep_retry_shape {o : AttemptOutcome} {a : Nat} {r d : ℚ}
    (h : cseStep o a r = .retry d) :
    a < 2 ∧
    ((∃ resp, o = .resp resp ∧ retryableStatus resp.status = true ∧
        d = (retryAfterDelay resp).getD (backoffDelay a r)) ∨
     (∃ m, o = .netErr m ∧ d = backoffDelay a r)) := by
  cases o with
  | resp resp =>
    simp only [cseStep] at h
    by_cases h1 : (!statusRaises resp.status) = true
    · rw [if_pos h1] at h
      simp at h
    rw [if_neg h1] at h
    by_cases h2 : (retryableStatus resp.status && decide (a < 2)) = true
    · rw [if_pos h2] at h
      injection h with hd2
      simp only [Bool.and_eq_true, decide_eq_true_eq] at h2
      exact ⟨h2.2, .inl ⟨resp, rfl, h2.1, hd2.symm⟩⟩
    · rw [if_neg h2] at h
      simp at h
  | netErr m =>
    simp only [cseStep] at h
    by_cases hc : a < 2
    · rw [if_pos hc] at h
      injection h with hd2
      exact ⟨hc, .inr ⟨m, rfl, hd2.symm⟩⟩
    · rw [if_neg hc] at h
      simp at h

theorem cse_get_unfold (t : Nat → AttemptOutcome) (rnd : Nat → ℚ) :
    cse_get t rnd =
      match cseStep (t 0) 0 (rnd 0) with
      | .done x => { res := some x, attempts := 1, delays := [] }
      | .retry d0 =>
        match cseStep (t 1) 1 (rnd 1) with
        | .done x => { res := some x, attempts := 2, delays := [d0] }
        | .retry d1 =>
          match cseStep (t 2) 2 (rnd 2) with
          | .done x => { res := some x, attempts := 3, delays := [d0, d1] }
          | .retry d2 => { res := none, attempts := 3, delays := [d0, d1, d2] } := by
  show cseGetGo t rnd [0, 1, 2] = _
  rcases h0 : cseStep (t 0) 0 (rnd 0) with x | d0
  · simp [cseGetGo, h0]
  rcases h1 : cseStep (t 1) 1 (rnd 1) with x | d1
  · simp [cseGetGo, h0, h1]
  rcases h2 : cseStep (t 2) 2 (rnd 2) with x | d2 <;>
    simp [cseGetGo, h0, h1, h2]

theorem cse_get_res_isSome (t : Nat → AttemptOutcome) (rnd : Nat → ℚ) :
    (cse_get t rnd).res.isSome = true := by
  rw [cse_get_unfold]
  rcases h0 : cseStep (t 0) 0 (rnd 0) with x | d0
  · simp
  rcases h1 : cseStep (t 1) 1 (rnd 1) with x | d1
  · simp
  rcases h2 : cseStep (t 2) 2 (rnd 2) with x | d2
  · simp
  · obtain ⟨y, hy⟩ := cseStep_two_done (t 2) (rnd 2)
    rw [hy] at h2
    exact absurd h2 (by simp)

/-! Helper lemmas about normalization and the allowlist. -/

theorem normAux_ranks_sublist (allow : List Str) (i : Nat)
    (items : List RawItem) :
    ((normalizeAux allow i items).map NormalizedItem.rank).Sublist
      (List.range' i items.length) := by
  induction items generalizing i with
  | nil => simp [normalizeAux]
  | cons it rest ih =>
    rw [List.length_cons, List.range'_succ]
    unfold normalizeAux
    split
    · simpa using List.Sublist.cons₂ i (ih (i + 1))
    · exact List.Sublist.cons i (ih (i + 1))

theorem normAux_nil_ranks (i : Nat) (items : List RawItem) :
    (normalizeAux [] i items).map NormalizedItem.rank =
      List.range' i items.length := by
  induction items generalizing i with
  | nil => rfl
  | cons it rest ih =>
    rw [List.length_cons, List.range'_succ]
    unfold normalizeAux
    rw [if_pos (show keepItem [] it.link = true from rfl)]
    simp [ih (i + 1)]

theorem normAux_nil_allow (i : Nat) (items : List RawItem) :
    normalizeAux [] i items =
      (List.enumFrom i items).map
        (fun p => { title := p.2.title, url := p.2.link,
                    snippet := p.2.snippet, rank := p.1 }) := by
  induction items generalizing i with
  | nil => rfl
  | cons it rest ih =>
    unfold normalizeAux
    rw [if_pos (show keepItem [] it.link = true from rfl)]
    simp [List.enumFrom, ih (i + 1)]

theorem mem_normAux {allow : List Str} {i : Nat} {items : List RawItem}
    {r : NormalizedItem} (h : r ∈ normalizeAux allow i items) :
    keepItem allow r.url = true ∧ ∃ it ∈ items, r.url = it.link := by
  induction items generalizing i with
  | nil => simp [normalizeAux] at h
  | cons it rest ih =>
    unfold normalizeAux at h
    split at h
    next hk =>
      rcases List.mem_cons.mp h with h1 | h1
      · subst h1
        exact ⟨hk, ⟨it, List.mem_cons_self it rest, rfl⟩⟩
      · obtain ⟨hk2, it2, hm, hu⟩ := ih h1
        exact ⟨hk2, it2, List.mem_cons_of_mem _ hm, hu⟩
    next =>
      obtain ⟨hk2, it2, hm, hu⟩ := ih h
      exact ⟨hk2, it2, List.mem_cons_of_mem _ hm, hu⟩

theorem parseAllow_ne_nil {s d : Str} (h : d ∈ parseAllowDomains s) :
    d ≠ [] := by
  unfold parseAllowDomains at h
  rcases List.mem_map.mp h with ⟨d2, hd2, rfl⟩
  rcases List.mem_filter.mp hd2 with ⟨-, hne⟩
  intro hc
  rw [pyLower, List.map_eq_nil_iff] at hc
  subst hc
  simp at hne

theorem endswith_nil_of_ne {d : Str} (h : d ≠ []) : endswith [] d = false := by
  by_contra hc
  simp only [Bool.not_eq_false, endswith, List.isSuffixOf_iff_suffix,
    List.suffix_nil] at hc
  exact h hc

/-! Helper lemmas about the `search` pipeline. -/

theorem search_ok_shape {cfg : Config} {a : SearchArgs}
    {t : Nat → AttemptOutcome} {rnd : Nat → ℚ} {r : SearchResult}
    (h : (search cfg a t rnd).res = .ok r) :
    r.query =
      echoed_query (pyStrip a.q) (max 1 (min 10 a.num)) (max 1 a.start) a := by
  simp only [search] at h
  by_cases hs : safeInvalid a.safe = true
  · rw [if_pos hs] at h
    simp at h
  rw [if_neg hs] at h
  rcases hres : (cse_get t rnd).res with _ | x
  · simp only [hres] at h
    simp at h
  rcases x with e | data
  · simp only [hres] at h
    simp at h
  · simp only [hres, Except.ok.injEq] at h
    rw [← h]

theorem search_sent_shape {cfg : Config} {a : SearchArgs}
    {t : Nat → AttemptOutcome} {rnd : Nat → ℚ} {p : List (Str × PVal)}
    (h : (search cfg a t rnd).sent = some p) :
    p = buildParams cfg a (pyStrip a.q) (max 1 (min 10 a.num))
      (max 1 a.start) := by
  simp only [search] at h
  by_cases hs : safeInvalid a.safe = true
  · rw [if_pos hs] at h
    simp at h
  rw [if_neg hs] at h
  rcases hres : (cse_get t rnd).res with _ | x
  · simp only [hres, Option.some.injEq] at h
    exact h.symm
  rcases x with e | data
  · simp only [hres, Option.some.injEq] at h
    exact h.symm
  · simp only [hres, Option.some.injEq] at h
    exact h.symm

theorem echoed_query_keys (q : Str) (num start : Int) (a : SearchArgs) :
    (echoed_query q num start a).map Prod.fst =
      [("q").data, ("num").data, ("start").data, ("safe").data, ("gl").data,
       ("hl").data, ("lr").data, ("siteSearch").data,
       ("siteSearchFilter").data, ("dateRestrict").data,
       ("exactTerms").data, ("orTerms").data, ("excludeTerms").data] := rfl

theorem key_mem_params (cfg : Config) (a : SearchArgs) (q : Str)
    (num start : Int) :
    ("key").data ∈ (buildParams cfg a q num start).map Prod.fst := by
  have h : (("key").data, PVal.vstr cfg.apiKey) ∈ buildParams cfg a q num start := by
    show (("key").data, PVal.vstr cfg.apiKey) ∈
      (("key").data, PVal.vstr cfg.apiKey) :: _
    exact List.mem_cons_self _ _
  exact List.mem_map_of_mem Prod.fst h

/-! Claim theorems. -/

/-- C1, counterexample: with allowlist `example.com` and raw links on hosts
`example.com`, `evil.com`, `sub.example.com`, `_normalize` returns ranks
`[1, 3]` — ranks are *not* recomputed over the surviving items, so the
claimed invariant `items[i].rank == i+1` fails at index 1. -/
theorem C1_counterexample :
    (normalize (parseAllowDomains (("example.com").data)) exItems3).map
      NormalizedItem.rank = [1, 3] ∧
    ¬ (∀ i : Fin (normalize (parseAllowDomains (("example.com").data))
          exItems3).length,
        ((normalize (parseAllowDomains (("example.com").data))
          exItems3).get i).rank = i.1 + 1) := by
  exact ⟨by decide, by decide⟩

/-- C1, amended: each returned item's `rank` is its 1-based position in the
*raw* upstream list, so the rank sequence is a strictly increasing
subsequence of `1..n`; it equals the contiguous `1, 2, ..., n` exactly when
no item is dropped (in particular whenever no allowlist is configured), but
ranks are not recomputed after allowlist drops, so they may have gaps. -/
theorem C1_rank_raw_position (allow : List Str) (items : List RawItem) :
    ((normalize allow items).map NormalizedItem.rank).Sublist
      (List.range' 1 items.length) ∧
    (allow = [] →
      (normalize allow items).map NormalizedItem.rank =
        List.range' 1 items.length) ∧
    ((normalize allow items).length = items.length →
      (normalize allow items).map NormalizedItem.rank =
        List.range' 1 items.length) := by
  refine ⟨normAux_ranks_sublist allow 1 items, ?_, ?_⟩
  · rintro rfl
    exact normAux_nil_ranks 1 items
  · intro h
    refine (normAux_ranks_sublist allow 1 items).eq_of_length ?_
    rw [List.length_map, List.length_range']
    exact h

/-- C1, witness for the amended theorem at a concrete input. -/
theorem C1_rank_raw_position_witness :
    (normalize [] exItems3).map NormalizedItem.rank = List.range' 1 3 :=
  (C1_rank_raw_position [] exItems3).2.1 rfl

/-- C4: with a configured allowlist, every returned item's host ends with
some allowlist entry; on the three-link example with allowlist
`example.com`, exactly the `example.com` and `sub.example.com` items
survive and `evil.com` is absent. -/
theorem C4_allowlist_filtering (s : Str) (items : List RawItem)
    (h : parseAllowDomains s ≠ []) :
    (∀ r ∈ normalize (parseAllowDomains s) items,
      (parseAllowDomains s).any
        (fun dom => endswith (hostOf r.url) dom) = true) ∧
    (normalize (parseAllowDomains (("example.com").data)) exItems3).map
        (fun r => r.url) =
      [some ("https://example.com/a").data,
       some ("https://sub.example.com/c").data] ∧
    (normalize (parseAllowDomains (("example.com").data)) exItems3).map
        (fun r => hostOf r.url) =
      [("example.com").data, ("sub.example.com").data] ∧
    (∀ r ∈ normalize (parseAllowDomains (("example.com").data)) exItems3,
      hostOf r.url ≠ ("evil.com").data) := by
  refine ⟨?_, by decide, by decide, by decide⟩
  intro r hr
  obtain ⟨hk, -⟩ := mem_normAux hr
  simp only [keepItem] at hk
  rw [if_neg (by simpa [List.isEmpty_iff] using h)] at hk
  exact hk

/-- C4, witness at the three-link example. -/
theorem C4_allowlist_filtering_witness :
    (normalize (parseAllowDomains (("example.com").data)) exItems3).map
        (fun r => r.url) =
      [some ("https://example.com/a").data,
       some ("https://sub.example.com/c").data] :=
  (C4_allowlist_filtering (("example.com").data) exItems3 (by decide)).2.1

/-- C9: the allowlist check is a bare string-suffix test with no
domain-label-boundary requirement: host `notexample.com` ends with the
entry `example.com`, so the item is retained. -/
theorem C9_suffix_no_boundary :
    hostOf (some ("https://notexample.com/x").data) =
      ("notexample.com").data ∧
    endswith (("notexample.com").data) (("example.com").data) = true ∧
    ("notexample.com").data ≠ ("example.com").data ∧
    normalize (parseAllowDomains (("example.com").data)) exItemNot =
      [{ title := some ("t").data,
         url := some ("https://notexample.com/x").data,
         snippet := some ("s").data, rank := 1 }] := by
  exact ⟨by decide, by decide, by decide, by decide⟩

/-- C10: a raw item whose `link` is absent parses to the empty host, so with
a non-empty allowlist it is dropped (no error raised — the model is total
on `none` links); with no allowlist every item is retained, keeping
`url = None` and its position in the rank numbering. -/
theorem C10_null_link (s : Str) (items : List RawItem)
    (h : parseAllowDomains s ≠ []) :
    hostOf none = [] ∧
    (∀ r ∈ normalize (parseAllowDomains s) items, r.url ≠ none) ∧
    (normalize [] items).map (fun r => (r.url, r.rank)) =
      (List.enumFrom 1 items).map (fun p => (p.2.link, p.1)) := by
  refine ⟨rfl, ?_, ?_⟩
  · intro r hr hnone
    obtain ⟨hk, -⟩ := mem_normAux hr
    rw [hnone] at hk
    simp only [keepItem] at hk
    rw [if_neg (by simpa [List.isEmpty_iff] using h)] at hk
    rw [List.any_eq_true] at hk
    obtain ⟨d, hd, he⟩ := hk
    simp only [hostOf] at he
    rw [endswith_nil_of_ne (parseAllow_ne_nil hd)] at he
    exact absurd he (by simp)
  · rw [normalize, normAux_nil_allow]
    simp [List.map_map, Function.comp]

/-- C10, witness: the null-link item is dropped under the allowlist and
retained (with `url = None`, rank 1) without one. -/
theorem C10_null_link_witness :
    normalize (parseAllowDomains (("example.com").data)) exItemsNull =
      [{ title := none, url := some ("https://example.com/a").data,
         snippet := none, rank := 2 }] ∧
    (normalize [] exItemsNull).map (fun r => (r.url, r.rank)) =
      (List.enumFrom 1 exItemsNull).map (fun p => (p.2.link, p.1)) :=
  ⟨by decide,
   (C10_null_link (("example.com").data) exItemsNull (by decide)).2.2⟩

/-- C5: whenever `search` returns successfully, the echoed query mapping in
the result carries a fixed key set that never includes `key` (the upstream
authentication field), while the parameter dict actually sent upstream does
include `key`. -/
theorem C5_no_key_in_echo (cfg : Config) (a : SearchArgs)
    (t : Nat → AttemptOutcome) (rnd : Nat → ℚ) (r : SearchResult)
    (h : (search cfg a t rnd).res = .ok r) :
    ("key").data ∉ r.query.map Prod.fst ∧
    (∀ p, (search cfg a t rnd).sent = some p →
      ("key").data ∈ p.map Prod.fst) := by
  constructor
  · rw [search_ok_shape h, echoed_query_keys]
    decide
  · intro p hp
    rw [search_sent_shape hp]
    exact key_mem_params cfg a (pyStrip a.q) (max 1 (min 10 a.num))
      (max 1 a.start)

/-- C5, witness at a concrete successful call. -/
theorem C5_no_key_in_echo_witness :
    ("key").data ∉ exOkResult.query.map Prod.fst ∧
    ("key").data ∈
      (buildParams exCfg exArgs (("hi").data) 5 1).map Prod.fst :=
  ⟨(C5_no_key_in_echo exCfg exArgs exOk200 exRnd0 exOkResult (by decide)).1,
   (C5_no_key_in_echo exCfg exArgs exOk200 exRnd0 exOkResult (by decide)).2
     (buildParams exCfg exArgs (("hi").data) 5 1) (by decide)⟩

/-- C6, counterexample: `safe` equal to the empty string is present and is
not one of `off`/`active`, yet — because Python's `if safe and ...` treats
`""` as falsy — `search` performs an upstream call (1 attempt, parameters
sent) and returns successfully instead of failing validation. -/
theorem C6_counterexample :
    exArgsEmptySafe.safe = some [] ∧
    ([] : Str) ≠ ("off").data ∧
    ([] : Str) ≠ ("active").data ∧
    (search exCfg exArgsEmptySafe exOk200 exRnd0).attempts = 1 ∧
    (search exCfg exArgsEmptySafe exOk200 exRnd0).sent ≠ none ∧
    (search exCfg exArgsEmptySafe exOk200 exRnd0).res.isOk = true := by
  exact ⟨rfl, by decide, by decide, by decide, by decide, by decide⟩

/-- C6, amended: if `safe` is present as a *non-empty* string other than
`off`/`active`, `search` raises `ValueError` before any network call: zero
attempts, no parameters sent, no retry sleeps.  (An empty-string `safe` is
falsy in Python and skips the validation.) -/
theorem C6_safe_validation (cfg : Config) (a : SearchArgs)
    (t : Nat → AttemptOutcome) (rnd : Nat → ℚ) (v : Str)
    (h1 : a.safe = some v) (h2 : v ≠ []) (h3 : v ≠ ("off").data)
    (h4 : v ≠ ("active").data) :
    (search cfg a t rnd).res = .error
      { exn := ("ValueError").data,
        msg := ("safe must be \"off\" or \"active\" for Google CSE").data } ∧
    (search cfg a t rnd).attempts = 0 ∧
    (search cfg a t rnd).sent = none ∧
    (search cfg a t rnd).delays = [] := by
  have hs : safeInvalid a.safe = true := by
    rw [h1]
    simp only [safeInvalid, Bool.and_eq_true, Bool.not_eq_true',
      List.isEmpty_eq_false, beq_eq_false_iff_ne, ne_eq]
    exact ⟨⟨h2, h3⟩, h4⟩
  simp only [search]
  rw [if_pos hs]
  exact ⟨rfl, rfl, rfl, rfl⟩

/-- C6, witness: the unsupported value `strict` fails before any call. -/
theorem C6_safe_validation_witness :
    (search exCfg exArgsStrict exOk200 exRnd0).res = .error
      { exn := ("ValueError").data,
        msg := ("safe must be \"off\" or \"active\" for Google CSE").data } ∧
    (search exCfg exArgsStrict exOk200 exRnd0).attempts = 0 ∧
    (search exCfg exArgsStrict exOk200 exRnd0).sent = none ∧
    (search exCfg exArgsStrict exOk200 exRnd0).delays = [] :=
  C6_safe_validation exCfg exArgsStrict exOk200 exRnd0 (("strict").data) rfl
    (by decide) (by decide) (by decide)

/-- C8: the upstream parameters always carry `num` clamped into `[1, 10]`
and `start` clamped to at least 1 — out-of-range integers are coerced,
never rejected. -/
theorem C8_clamping (cfg : Config) (a : SearchArgs)
    (t : Nat → AttemptOutcome) (rnd : Nat → ℚ) (p : List (Str × PVal))
    (h : (search cfg a t rnd).sent = some p) :
    List.lookup (("num").data) p = some (.vint (max 1 (min 10 a.num))) ∧
    1 ≤ max 1 (min 10 a.num) ∧ max 1 (min 10 a.num) ≤ 10 ∧
    List.lookup (("start").data) p = some (.vint (max 1 a.start)) ∧
    1 ≤ max 1 a.start := by
  rw [search_sent_shape h]
  refine ⟨rfl, by omega, by omega, rfl, by omega⟩

/-- C8, witness: `num = 0` is sent upstream as `1`, `num = 99` as `10`, and
`start = -5` as `1`. -/
theorem C8_clamping_witness :
    List.lookup (("num").data)
      (buildParams exCfg exArgsNum0 (("hi").data) 1 1) = some (.vint 1) ∧
    List.lookup (("num").data)
      (buildParams exCfg exArgsNum99 (("hi").data) 10 1) = some (.vint 10) ∧
    List.lookup (("start").data)
      (buildParams exCfg exArgsNum99 (("hi").data) 10 1) = some (.vint 1) :=
  ⟨(C8_clamping exCfg exArgsNum0 exOk200 exRnd0
      (buildParams exCfg exArgsNum0 (("hi").data) 1 1) (by decide)).1,
   (C8_clamping exCfg exArgsNum99 exOk200 exRnd0
      (buildParams exCfg exArgsNum99 (("hi").data) 10 1) (by decide)).1,
   (C8_clamping exCfg exArgsNum99 exOk200 exRnd0
      (buildParams exCfg exArgsNum99 (("hi").data) 10 1) (by decide)).2.2.2.1⟩

/-- C2, counterexample: an upstream HTTP 403 failure and a pure network
failure are both raised as the same generic `RuntimeError` exception class —
not two distinguishable failure kinds; only the message text differs. -/
theorem C2_counterexample :
    (cse_get exTr403 exRnd0).res = some (.error
      { exn := ("RuntimeError").data,
        msg := ("CSE request failed (403): forbidden").data }) ∧
    (cse_get exTrNet exRnd0).res = some (.error
      { exn := ("RuntimeError").data,
        msg := ("Network error contacting CSE: boom").data }) ∧
    resExnClass (cse_get exTr403 exRnd0).res =
      resExnClass (cse_get exTrNet exRnd0).res ∧
    resExnClass (cse_get exTr403 exRnd0).res =
      some (("RuntimeError").data) := by
  exact ⟨by decide, by decide, by decide, by decide⟩

/-- C2, amended: every post-contact failure of `_cse_get` is raised as the
single generic `RuntimeError` class; the two situations are distinguishable
only by message format — an HTTP-status failure carries
`CSE request failed (<status>): <body[:500]>` with the body excerpt capped
at 500 characters, a transport failure carries
`Network error contacting CSE: <exception text>`. -/
theorem C2_error_kinds (t : Nat → AttemptOutcome) (rnd : Nat → ℚ) (e : PyErr)
    (h : (cse_get t rnd).res = some (.error e)) :
    e.exn = ("RuntimeError").data ∧
    ((∃ resp a, a < 3 ∧ t a = .resp resp ∧
        e.msg = ("CSE request failed (").data ++ (toString resp.status).data ++
          ("): ").data ++ resp.text.take 500 ∧
        (resp.text.take 500).length ≤ 500) ∨
     (∃ m a, a < 3 ∧ t a = .netErr m ∧
        e.msg = ("Network error contacting CSE: ").data ++ m)) := by
  rw [cse_get_unfold] at h
  rcases h0 : cseStep (t 0) 0 (rnd 0) with x | d0
  · simp only [h0, Option.some.injEq] at h
    subst h
    obtain ⟨hexn, hc⟩ := cseStep_error_shape h0
    refine ⟨hexn, ?_⟩
    rcases hc with ⟨resp, ho, hm⟩ | ⟨m, ho, hm⟩
    · exact .inl ⟨resp, 0, by omega, ho, hm, List.length_take_le 500 resp.text⟩
    · exact .inr ⟨m, 0, by omega, ho, hm⟩
  rcases h1 : cseStep (t 1) 1 (rnd 1) with x | d1
  · simp only [h0, h1, Option.some.injEq] at h
    subst h
    obtain ⟨hexn, hc⟩ := cseStep_error_shape h1
    refine ⟨hexn, ?_⟩
    rcases hc with ⟨resp, ho, hm⟩ | ⟨m, ho, hm⟩
    · exact .inl ⟨resp, 1, by omega, ho, hm, List.length_take_le 500 resp.text⟩
    · exact .inr ⟨m, 1, by omega, ho, hm⟩
  rcases h2 : cseStep (t 2) 2 (rnd 2) with x | d2
  · simp only [h0, h1, h2, Option.some.injEq] at h
    subst h
    obtain ⟨hexn, hc⟩ := cseStep_error_shape h2
    refine ⟨hexn, ?_⟩
    rcases hc with ⟨resp, ho, hm⟩ | ⟨m, ho, hm⟩
    · exact .inl ⟨resp, 2, by omega, ho, hm, List.length_take_le 500 resp.text⟩
    · exact .inr ⟨m, 2, by omega, ho, hm⟩
  · obtain ⟨y, hy⟩ := cseStep_two_done (t 2) (rnd 2)
    rw [hy] at h2
    simp at h2

/-- C2, witness: the amended theorem applied to the HTTP 403 trace. -/
theorem C2_error_kinds_witness :
    ({ exn := ("RuntimeError").data,
       msg := ("CSE request failed (403): forbidden").data } : PyErr).exn =
      ("RuntimeError").data :=
  (C2_error_kinds exTr403 exRnd0
    { exn := ("RuntimeError").data,
      msg := ("CSE request failed (403): forbidden").data } (by decide)).1

/-- C3: `_cse_get` makes between 1 and 3 attempts; an additional attempt
follows attempt `a` exactly when attempt `a` happened, failed retryably
(status 429/500/502/503/504, or a transport error) and fewer than 3
attempts had been used (`a < 2`); the trace 503, 503, 200 succeeds with
exactly 3 attempts and the trace 403 fails with exactly 1. -/
theorem C3_retry_budget (t : Nat → AttemptOutcome) (rnd : Nat → ℚ) :
    (1 ≤ (cse_get t rnd).attempts ∧ (cse_get t rnd).attempts ≤ 3) ∧
    (∀ a : Nat, a + 1 < (cse_get t rnd).attempts ↔
      (a < (cse_get t rnd).attempts ∧ a < 2 ∧ retryableFail (t a) = true)) ∧
    ((cse_get exTr503 rnd).attempts = 3 ∧
      (cse_get exTr503 rnd).res = some (.ok {})) ∧
    ((cse_get exTr403 rnd).attempts = 1 ∧
      (cse_get exTr403 rnd).res = some (.error
        { exn := ("RuntimeError").data,
          msg := ("CSE request failed (403): forbidden").data })) := by
  have main : (1 ≤ (cse_get t rnd).attempts ∧ (cse_get t rnd).attempts ≤ 3) ∧
      (∀ a : Nat, a + 1 < (cse_get t rnd).attempts ↔
        (a < (cse_get t rnd).attempts ∧ a < 2 ∧
          retryableFail (t a) = true)) := by
    have hu := cse_get_unfold t rnd
    rcases h0 : cseStep (t 0) 0 (rnd 0) with x | d0
    · simp only [h0] at hu
      rw [hu]
      refine ⟨⟨by show (1 : Nat) ≤ 1; omega, by show (1 : Nat) ≤ 3; omega⟩, ?_⟩
      intro a
      constructor
      · intro hlt
        have hlt2 : a + 1 < 1 := hlt
        omega
      · rintro ⟨ha1, ha2, hrf⟩
        have ha1b : a < 1 := ha1
        obtain rfl : a = 0 := by omega
        obtain ⟨d, hd⟩ := cseStep_retry_iff.mpr ⟨ha2, hrf⟩
        rw [h0] at hd
        simp at hd
    have hrf0 : retryableFail (t 0) = true := (cseStep_retry_iff.mp ⟨d0, h0⟩).2
    rcases h1 : cseStep (t 1) 1 (rnd 1) with x | d1
    · simp only [h0, h1] at hu
      rw [hu]
      refine ⟨⟨by show (1 : Nat) ≤ 2; omega, by show (2 : Nat) ≤ 3; omega⟩, ?_⟩
      intro a
      constructor
      · intro hlt
        have hlt2 : a + 1 < 2 := hlt
        obtain rfl : a = 0 := by omega
        exact ⟨by show (0 : Nat) < 2; omega, by omega, hrf0⟩
      · rintro ⟨ha1, ha2, hrf⟩
        show a + 1 < 2
        rcases Nat.lt_or_ge a 1 with hlt1 | hge1
        · omega
        · obtain rfl : a = 1 := by omega
          obtain ⟨d, hd⟩ := cseStep_retry_iff.mpr ⟨ha2, hrf⟩
          rw [h1] at hd
          simp at hd
    have hrf1 : retryableFail (t 1) = true := (cseStep_retry_iff.mp ⟨d1, h1⟩).2
    rcases h2 : cseStep (t 2) 2 (rnd 2) with x | d2
    · simp only [h0, h1, h2] at hu
      rw [hu]
      refine ⟨⟨by show (1 : Nat) ≤ 3; omega, by show (3 : Nat) ≤ 3; omega⟩, ?_⟩
      intro a
      constructor
      · intro hlt
        have hlt2 : a + 1 < 3 := hlt
        rcases Nat.lt_or_ge a 1 with hlt1 | hge1
        · obtain rfl : a = 0 := by omega
          exact ⟨by show (0 : Nat) < 3; omega, by omega, hrf0⟩
        · obtain rfl : a = 1 := by omega
          exact ⟨by show (1 : Nat) < 3; omega, by omega, hrf1⟩
      · rintro ⟨ha1, ha2, hrf⟩
        show a + 1 < 3
        omega
    · obtain ⟨y, hy⟩ := cseStep_two_done (t 2) (rnd 2)
      rw [hy] at h2
      simp at h2
  exact ⟨main.1, main.2, ⟨rfl, rfl⟩, ⟨rfl, rfl⟩⟩

/-- C7, counterexample: the first attempt's 503 response carries
`Retry-After: abc`, which `float()` cannot parse, so the delay actually
slept is the jitter backoff `(0.2 + 0.5 * 0.4) * 2^0 = 0.4` seconds — the
carried `Retry-After` value is not used as the delay. -/
theorem C7_counterexample :
    exTrRAbad 0 = .resp { status := 503, retryAfter := some ("abc").data } ∧
    pyFloatOpt (("abc").data) = none ∧
    (cse_get exTrRAbad exRndHalf).delays = [2 / 5] ∧
    ((2 : ℚ) / 5) = ((1 : ℚ) / 5 + (1 / 2) * ((2 : ℚ) / 5)) * 2 ^ 0 := by
  refine ⟨rfl, by decide, ?_, by norm_num⟩
  have h : (cse_get exTrRAbad exRndHalf).delays =
      [backoffDelay 0 (1 / 2)] := rfl
  rw [h, backoffDelay]
  norm_num

/-- C7, amended: the sleep before retry `a` (only `a < 2` retries exist) is
the parsed `Retry-After` seconds floored at 0 when the response carries a
truthy value that `float()` parses, and otherwise — unparseable or absent
`Retry-After`, and every transport-failure retry — the jitter backoff
`(0.2 + r * 0.4) * 2^a` with `r` the attempt's random draw. -/
theorem C7_delay_formula (t : Nat → AttemptOutcome) (rnd : Nat → ℚ) (a : Nat)
    (d : ℚ) (h : (cse_get t rnd).delays[a]? = some d) :
    a < 2 ∧
    ((∃ resp, t a = .resp resp ∧
        d = (retryAfterDelay resp).getD
          (((1 : ℚ) / 5 + rnd a * ((2 : ℚ) / 5)) * 2 ^ a)) ∨
     (∃ m, t a = .netErr m ∧
        d = ((1 : ℚ) / 5 + rnd a * ((2 : ℚ) / 5)) * 2 ^ a)) := by
  have hback : ∀ n : Nat, backoffDelay n (rnd n) =
      ((1 : ℚ) / 5 + rnd n * ((2 : ℚ) / 5)) * 2 ^ n := fun n => rfl
  rw [cse_get_unfold] at h
  rcases h0 : cseStep (t 0) 0 (rnd 0) with x | d0
  · simp only [h0] at h
    simp at h
  rcases h1 : cseStep (t 1) 1 (rnd 1) with x | d1
  · simp only [h0, h1] at h
    rcases a with _ | a
    · simp only [List.getElem?_cons_zero, Option.some.injEq] at h
      subst h
      obtain ⟨h02, hc⟩ := cseStep_retry_shape h0
      refine ⟨by omega, ?_⟩
      rcases hc with ⟨resp, ho, -, hd⟩ | ⟨m, ho, hd⟩
      · exact .inl ⟨resp, ho, by rw [hd, hback 0]⟩
      · exact .inr ⟨m, ho, by rw [hd, hback 0]⟩
    · simp at h
  rcases h2 : cseStep (t 2) 2 (rnd 2) with x | d2
  · simp only [h0, h1, h2] at h
    rcases a with _ | a
    · simp only [List.getElem?_cons_zero, Option.some.injEq] at h
      subst h
      obtain ⟨h02, hc⟩ := cseStep_retry_shape h0
      refine ⟨by omega, ?_⟩
      rcases hc with ⟨resp, ho, -, hd⟩ | ⟨m, ho, hd⟩
      · exact .inl ⟨resp, ho, by rw [hd, hback 0]⟩
      · exact .inr ⟨m, ho, by rw [hd, hback 0]⟩
    rcases a with _ | a
    · simp only [List.getElem?_cons_succ, List.getElem?_cons_zero,
        Option.some.injEq] at h
      subst h
      obtain ⟨h12, hc⟩ := cseStep_retry_shape h1
      refine ⟨by omega, ?_⟩
      rcases hc with ⟨resp, ho, -, hd⟩ | ⟨m, ho, hd⟩
      · exact .inl ⟨resp, ho, by rw [hd, hback 1]⟩
      · exact .inr ⟨m, ho, by rw [hd, hback 1]⟩
    · simp at h
  · obtain ⟨y, hy⟩ := cseStep_two_done (t 2) (rnd 2)
    rw [hy] at h2
    simp at h2

/-- C7, witness: a parseable `Retry-After: 7` header on the first 503 is
honoured as the 7-second delay before the retry. -/
theorem C7_delay_formula_witness :
    (0 : Nat) < 2 ∧
    ((∃ resp, exTrRA7 0 = .resp resp ∧
        (7 : ℚ) = (retryAfterDelay resp).getD
          (((1 : ℚ) / 5 + exRndHalf 0 * ((2 : ℚ) / 5)) * 2 ^ 0)) ∨
     (∃ m, exTrRA7 0 = .netErr m ∧
        (7 : ℚ) = ((1 : ℚ) / 5 + exRndHalf 0 * ((2 : ℚ) / 5)) * 2 ^ 0)) :=
  C7_delay_formula exTrRA7 exRndHalf 0 7 (by
    have h : (cse_get exTrRA7 exRndHalf).delays =
        [max 0 ((digitsVal (("7").data) : ℚ))] := rfl
    rw [h]
    have h2 : digitsVal (("7").data) = 7 := by decide
    rw [h2]
    simp)

end GoogleSearchMCP
